import Mathlib

/-!
# Ping-task eligibility and target resolution (`db/nqm.go`)

A shallow embedding of the SQL statements and the Go control flow of
`GetAndRefreshNeedPingAgentForRpc`, `getPingTaskState`, `loadAllTargets`,
`loadTargetsByFilter` and `GetTargetsByAgentForRpc`.

Tables are lists of rows holding the columns the statements mention.  A
`SELECT` is a list expression over those tables, `INNER JOIN ... ON` is a
nested iteration keeping the pairs that satisfy the `ON` condition, `UNION`
is concatenation followed by removal of duplicate rows, `LIMIT 1` keeps the
first row, `COUNT` is the length of the row list.  Timestamps are Unix
seconds, so `FROM_UNIXTIME` is the identity; a `NULL` column is `none`.
Driver failures are supplied by a `Faults` record, one field per statement.
-/

namespace Hbs

/-! ## Data model -/

/-- A driver error other than `sql.ErrNoRows`. -/
structure DbError where
  msg : String
deriving DecidableEq, Repr

/-- Row of `nqm_agent` (columns read by the statements of `nqm.go`). -/
structure AgentRow where
  ag_id : Int
  ag_status : Nat
  ag_isp_id : Int
  ag_pv_id : Int
  ag_ct_id : Int
deriving DecidableEq, Repr

/-- Row of `nqm_ping_task`; `pt_time_last_execute = none` is SQL `NULL`. -/
structure PingTaskRow where
  pt_ag_id : Int
  pt_period : Int
  pt_time_last_execute : Option Int
deriving DecidableEq, Repr

/-- Row of `nqm_target`; `tg_name_tag = none` is SQL `NULL`. -/
structure TargetRow where
  tg_id : Int
  tg_host : String
  tg_isp_id : Int
  tg_pv_id : Int
  tg_ct_id : Int
  tg_name_tag : Option String
  tg_probed_by_all : Bool
deriving DecidableEq, Repr

/-- Row of `nqm_pt_target_filter_isp`. -/
structure IspFilterRow where
  tfisp_pt_ag_id : Int
  tfisp_isp_id : Int
deriving DecidableEq, Repr

/-- Row of `nqm_pt_target_filter_province`. -/
structure ProvinceFilterRow where
  tfpv_pt_ag_id : Int
  tfpv_pv_id : Int
deriving DecidableEq, Repr

/-- Row of `nqm_pt_target_filter_city`. -/
structure CityFilterRow where
  tfct_pt_ag_id : Int
  tfct_ct_id : Int
deriving DecidableEq, Repr

/-- Row of `nqm_pt_target_filter_name_tag`. -/
structure NameTagFilterRow where
  tfnt_pt_ag_id : Int
  tfnt_name_tag : String
deriving DecidableEq, Repr

/-- The relational store: the seven tables the statements touch. -/
structure Store where
  nqm_agent : List AgentRow
  nqm_ping_task : List PingTaskRow
  nqm_target : List TargetRow
  nqm_pt_target_filter_isp : List IspFilterRow
  nqm_pt_target_filter_province : List ProvinceFilterRow
  nqm_pt_target_filter_city : List CityFilterRow
  nqm_pt_target_filter_name_tag : List NameTagFilterRow
deriving DecidableEq, Repr

/-- Fields of `commonModel.NqmAgent` written by `GetAndRefreshNeedPingAgentForRpc`. -/
structure NqmAgent where
  Id : Int
  IspId : Int
  ProvinceId : Int
  CityId : Int
deriving DecidableEq, Repr

/-- Fields of `commonModel.NqmTarget` written by `GetTargetsByAgentForRpc`. -/
structure NqmTarget where
  Id : Int
  Host : String
  IspId : Int
  ProvinceId : Int
  CityId : Int
  NameTag : String
deriving DecidableEq, Repr

/-- The six columns every target `SELECT` projects
(`tg_id, tg_host, tg_isp_id, tg_pv_id, tg_ct_id, tg_name_tag`). -/
structure TargetCols where
  tg_id : Int
  tg_host : String
  tg_isp_id : Int
  tg_pv_id : Int
  tg_ct_id : Int
  tg_name_tag : Option String
deriving DecidableEq, Repr

/-- Driver failures, one slot per statement; `none` means the statement succeeds. -/
structure Faults where
  selectDueAgent : Option DbError
  updateLastExecute : Option DbError
  countPingTask : Option DbError
  countFilter : Option DbError
  loadTargets : Option DbError
deriving DecidableEq, Repr

/-- No statement fails. -/
def noFaults : Faults :=
  { selectDueAgent := none, updateLastExecute := none, countPingTask := none,
    countFilter := none, loadTargets := none }

/-- The handle a statement is issued on: the transaction `tx` handed to the
callback of `inTx`, or the package-level pool `DB`. -/
inductive Handle where
  | transaction
  | pool
deriving DecidableEq, Repr

/-- The package-level handle `DB`. -/
def DB : Handle := Handle.pool

/-- The two statements of `GetAndRefreshNeedPingAgentForRpc`. -/
inductive Statement where
  | selectDueAgent
  | updateLastExecute
deriving DecidableEq, Repr

/-! ## SQL built-ins -/

/-- SQL `FROM_UNIXTIME(n)`: timestamps are kept as Unix seconds. -/
def FROM_UNIXTIME (n : Int) : Int := n

/-- SQL `IFNULL(x, d)`. -/
def IFNULL (x : Option Int) (d : Int) : Int :=
  match x with
  | some v => v
  | none => d

/-- SQL `TIMESTAMPDIFF(MINUTE, a, b)`: the number of whole minutes from `a`
to `b`, the quotient of the second difference by 60 rounded toward zero. -/
def TIMESTAMPDIFF_MINUTE (a b : Int) : Int := Int.tdiv (b - a) 60

/-! ## `GetAndRefreshNeedPingAgentForRpc` -/

/-- The derived table `pt` of the due-check: the ping tasks of `agentId`
whose period has elapsed at `checkedTime`. -/
def duePingTasks (s : Store) (agentId checkedTime : Int) : List PingTaskRow :=
  s.nqm_ping_task.filter fun pt =>
    decide (pt.pt_ag_id = agentId) &&
    decide (TIMESTAMPDIFF_MINUTE (IFNULL pt.pt_time_last_execute (FROM_UNIXTIME 0))
      (FROM_UNIXTIME checkedTime) ≥ pt.pt_period)

/-- The due-check `SELECT ag_isp_id, ag_pv_id, ag_ct_id FROM nqm_agent AS ag
INNER JOIN (...) AS pt ON ag.ag_id = pt.pt_ag_id AND ag.ag_status & 1 = 1`. -/
def selectDueAgent (s : Store) (agentId checkedTime : Int) : List (Int × Int × Int) :=
  s.nqm_agent.flatMap fun ag =>
    ((duePingTasks s agentId checkedTime).filter fun pt =>
      decide (ag.ag_id = pt.pt_ag_id) && decide (ag.ag_status &&& 1 = 1)).map
      fun _ => (ag.ag_isp_id, ag.ag_pv_id, ag.ag_ct_id)

/-- The claim write `UPDATE nqm_ping_task SET pt_time_last_execute =
FROM_UNIXTIME(?) WHERE pt_ag_id = ?`. -/
def updateLastExecute (s : Store) (checkedTime agentId : Int) : Store :=
  { s with nqm_ping_task := s.nqm_ping_task.map fun pt =>
      if pt.pt_ag_id = agentId then
        { pt with pt_time_last_execute := some (FROM_UNIXTIME checkedTime) }
      else pt }

/-- What `QueryRow(...).Scan(...)` yields. -/
inductive ScanResult (α : Type) where
  | row (r : α)
  | errNoRows
  | failed (e : DbError)

/-- The method `QueryRow(...).Scan(...)`: the driver error if the statement fails, else
the first row of the result set, else `sql.ErrNoRows`. -/
def queryRowScan {α : Type} (fault : Option DbError) (rows : List α) : ScanResult α :=
  match fault with
  | some e => ScanResult.failed e
  | none =>
    match rows.head? with
    | some r => ScanResult.row r
    | none => ScanResult.errNoRows

/-- What one call leaves behind: the store, the two Go return values, and the
statements it issued with the handle each went through. -/
structure Outcome where
  store : Store
  result : Option NqmAgent
  err : Option DbError
  issued : List (Handle × Statement)
deriving DecidableEq, Repr

/-- Modelled from the spec: `inTx` is defined in another file of package `db`;
it opens a transaction, hands it to the callback and commits or rolls back on
every exit path, returning the callback's error. -/
def inTx (txCallback : Handle → Outcome) : Outcome := txCallback Handle.transaction

/-- The Go function `GetAndRefreshNeedPingAgentForRpc(agentId, checkedTime)`;
`checkedTime` is `checkedTime.Unix()`. -/
def GetAndRefreshNeedPingAgentForRpc (f : Faults) (s : Store) (agentId checkedTime : Int) :
    Outcome :=
  inTx fun tx =>
    match queryRowScan f.selectDueAgent (selectDueAgent s agentId checkedTime) with
    | ScanResult.failed e =>
      { store := s, result := none, err := some e,
        issued := [(tx, Statement.selectDueAgent)] }
    | ScanResult.errNoRows =>
      { store := s, result := none, err := none,
        issued := [(tx, Statement.selectDueAgent)] }
    | ScanResult.row (isp, pv, ct) =>
      match f.updateLastExecute with
      | some e =>
        { store := s, result := none, err := some e,
          issued := [(tx, Statement.selectDueAgent), (DB, Statement.updateLastExecute)] }
      | none =>
        { store := updateLastExecute s checkedTime agentId,
          result := some { Id := agentId, IspId := isp, ProvinceId := pv, CityId := ct },
          err := none,
          issued := [(tx, Statement.selectDueAgent), (DB, Statement.updateLastExecute)] }

/-! ## `getPingTaskState` -/

/-- Go constant `NO_PING_TASK`. -/
def NO_PING_TASK : Int := 0

/-- Go constant `HAS_PING_TASK_WITH_FILTER`. -/
def HAS_PING_TASK_WITH_FILTER : Int := 1

/-- Go constant `HAS_PING_TASK_ALL_MATCHING`. -/
def HAS_PING_TASK_ALL_MATCHING : Int := 2

/-- The statement `SELECT COUNT(pt_ag_id) FROM nqm_ping_task WHERE pt_ag_id = ?`. -/
def countPingTask (s : Store) (agentId : Int) : Int :=
  ((s.nqm_ping_task.filter fun pt => decide (pt.pt_ag_id = agentId)).length : Int)

/-- The derived table `filter`: the `UNION` of the four one-column selects,
each cut by `LIMIT 1`. -/
def filterUnion (s : Store) (agentId : Int) : List Int :=
  ((((s.nqm_pt_target_filter_name_tag.filter fun r => decide (r.tfnt_pt_ag_id = agentId)).map
        fun r => r.tfnt_pt_ag_id).take 1
    ++ (((s.nqm_pt_target_filter_isp.filter fun r => decide (r.tfisp_pt_ag_id = agentId)).map
        fun r => r.tfisp_pt_ag_id).take 1)
    ++ (((s.nqm_pt_target_filter_province.filter fun r => decide (r.tfpv_pt_ag_id = agentId)).map
        fun r => r.tfpv_pt_ag_id).take 1)
    ++ (((s.nqm_pt_target_filter_city.filter fun r => decide (r.tfct_pt_ag_id = agentId)).map
        fun r => r.tfct_pt_ag_id).take 1))).dedup

/-- The statement `SELECT COUNT(*) FROM (...) AS filter`. -/
def countFilter (s : Store) (agentId : Int) : Int :=
  ((filterUnion s agentId).length : Int)

/-- The Go function `getPingTaskState(agentId)`, returning `(result, err)`. -/
def getPingTaskState (f : Faults) (s : Store) (agentId : Int) : Int × Option DbError :=
  match f.countPingTask with
  | some e => (NO_PING_TASK, some e)
  | none =>
    let result := countPingTask s agentId
    if result = NO_PING_TASK then (result, none)
    else
      match f.countFilter with
      | some e => (result, some e)
      | none =>
        let hasFilter := countFilter s agentId
        if hasFilter = 1 then (HAS_PING_TASK_WITH_FILTER, none)
        else (HAS_PING_TASK_ALL_MATCHING, none)

/-! ## `GetTargetsByAgentForRpc` -/

/-- The select list `tg_id, tg_host, tg_isp_id, tg_pv_id, tg_ct_id, tg_name_tag`. -/
def targetCols (tg : TargetRow) : TargetCols :=
  { tg_id := tg.tg_id, tg_host := tg.tg_host, tg_isp_id := tg.tg_isp_id,
    tg_pv_id := tg.tg_pv_id, tg_ct_id := tg.tg_ct_id, tg_name_tag := tg.tg_name_tag }

/-- The Go function `loadAllTargets()`: `SELECT ... FROM nqm_target`, without a `WHERE`. -/
def loadAllTargets (s : Store) : List TargetCols :=
  s.nqm_target.map targetCols

/-- First branch of `loadTargetsByFilter`: targets joined with the ISP filter. -/
def targetsByIsp (s : Store) (agentId : Int) : List TargetCols :=
  s.nqm_target.flatMap fun tg =>
    (s.nqm_pt_target_filter_isp.filter fun tfisp =>
      decide (tfisp.tfisp_pt_ag_id = agentId) && decide (tg.tg_isp_id = tfisp.tfisp_isp_id)).map
      fun _ => targetCols tg

/-- Second branch: targets joined with the province filter. -/
def targetsByProvince (s : Store) (agentId : Int) : List TargetCols :=
  s.nqm_target.flatMap fun tg =>
    (s.nqm_pt_target_filter_province.filter fun tfpv =>
      decide (tfpv.tfpv_pt_ag_id = agentId) && decide (tg.tg_pv_id = tfpv.tfpv_pv_id)).map
      fun _ => targetCols tg

/-- Third branch: targets joined with the city filter. -/
def targetsByCity (s : Store) (agentId : Int) : List TargetCols :=
  s.nqm_target.flatMap fun tg =>
    (s.nqm_pt_target_filter_city.filter fun tfct =>
      decide (tfct.tfct_pt_ag_id = agentId) && decide (tg.tg_ct_id = tfct.tfct_ct_id)).map
      fun _ => targetCols tg

/-- Fourth branch: targets joined with the name-tag filter; a `NULL`
`tg_name_tag` compares equal to nothing. -/
def targetsByNameTag (s : Store) (agentId : Int) : List TargetCols :=
  s.nqm_target.flatMap fun tg =>
    (s.nqm_pt_target_filter_name_tag.filter fun tfnt =>
      decide (tfnt.tfnt_pt_ag_id = agentId) &&
      decide (tg.tg_name_tag = some tfnt.tfnt_name_tag)).map
      fun _ => targetCols tg

/-- Fifth branch: `WHERE tg_probed_by_all = true`. -/
def targetsProbedByAll (s : Store) : List TargetCols :=
  (s.nqm_target.filter fun tg => tg.tg_probed_by_all).map targetCols

/-- The Go function `loadTargetsByFilter(agentId)`: the `UNION` of the five branches. -/
def loadTargetsByFilter (s : Store) (agentId : Int) : List TargetCols :=
  (targetsByIsp s agentId ++ targetsByProvince s agentId ++ targetsByCity s agentId
    ++ targetsByNameTag s agentId ++ targetsProbedByAll s).dedup

/-- The body of the `rows.Next()` loop: the target starts with
`NameTag = UNDEFINED_STRING` and takes the scanned tag when it is `Valid`.
`UNDEFINED_STRING` is a constant of `commonModel`, taken as a parameter. -/
def scanTarget (UNDEFINED_STRING : String) (row : TargetCols) : NqmTarget :=
  { Id := row.tg_id, Host := row.tg_host, IspId := row.tg_isp_id,
    ProvinceId := row.tg_pv_id, CityId := row.tg_ct_id,
    NameTag :=
      match row.tg_name_tag with
      | some nameTag => nameTag
      | none => UNDEFINED_STRING }

/-- The Go function `GetTargetsByAgentForRpc(agentId)`, returning `(targets, err)`.
The last branch of the `switch` is never taken: `getPingTaskState` returns
one of the three constants whenever it returns no error. -/
def GetTargetsByAgentForRpc (UNDEFINED_STRING : String) (f : Faults) (s : Store)
    (agentId : Int) : List NqmTarget × Option DbError :=
  match getPingTaskState f s agentId with
  | (_, some e) => ([], some e)
  | (taskState, none) =>
    if taskState = NO_PING_TASK then ([], none)
    else
      let rows : Option (List TargetCols) :=
        if taskState = HAS_PING_TASK_WITH_FILTER then some (loadTargetsByFilter s agentId)
        else if taskState = HAS_PING_TASK_ALL_MATCHING then some (loadAllTargets s)
        else none
      match f.loadTargets, rows with
      | some e, _ => ([], some e)
      | none, some rs => (rs.map (scanTarget UNDEFINED_STRING), none)
      | none, none => ([], none)

/-! ## Two calls in flight

The due-check is a plain `SELECT` on the transaction and takes no lock; the
claim write goes through `DB`, a pooled connection of its own that commits
at once.  Between the two statements of one call the store is therefore
open to the statements of another call. -/

/-- Where a call stands between its two statements. -/
inductive CallState where
  | start (agentId checkedTime : Int)
  | scanned (agentId checkedTime : Int) (row : Int × Int × Int)
  | returned (result : Option NqmAgent) (err : Option DbError)
deriving DecidableEq, Repr

/-- The next statement of a call, run on the shared store: the due-check
from `start`, the claim write from `scanned`. -/
def stepCall (f : Faults) (s : Store) : CallState → Store × CallState
  | CallState.start agentId checkedTime =>
    match queryRowScan f.selectDueAgent (selectDueAgent s agentId checkedTime) with
    | ScanResult.failed e => (s, CallState.returned none (some e))
    | ScanResult.errNoRows => (s, CallState.returned none none)
    | ScanResult.row r => (s, CallState.scanned agentId checkedTime r)
  | CallState.scanned agentId checkedTime (isp, pv, ct) =>
    match f.updateLastExecute with
    | some e => (s, CallState.returned none (some e))
    | none =>
      (updateLastExecute s checkedTime agentId,
        CallState.returned
          (some { Id := agentId, IspId := isp, ProvinceId := pv, CityId := ct }) none)
  | CallState.returned result err => (s, CallState.returned result err)

/-- Two calls on one store; the schedule names the call whose statement runs
next (`false` the first call, `true` the second). -/
def runCalls (f : Faults) : List Bool → Store × CallState × CallState →
    Store × CallState × CallState
  | [], st => st
  | false :: rest, (s, c1, c2) => runCalls f rest ((stepCall f s c1).1, (stepCall f s c1).2, c2)
  | true :: rest, (s, c1, c2) => runCalls f rest ((stepCall f s c2).1, c1, (stepCall f s c2).2)

/-! ## The conditions of the claims, in the words of the specification -/

/-- The claim's condition for "due": the agent has a ping task whose period
is at most the whole-minute difference between the reference time and the
last execution (Unix epoch 0 when never executed), and an enabled agent row. -/
def DueByClaim (s : Store) (a t : Int) : Prop :=
  (∃ pt ∈ s.nqm_ping_task, pt.pt_ag_id = a ∧
      pt.pt_period ≤ Int.tdiv (t - pt.pt_time_last_execute.getD 0) 60) ∧
  (∃ ag ∈ s.nqm_agent, ag.ag_id = a ∧ ag.ag_status % 2 = 1)

instance (s : Store) (a t : Int) : Decidable (DueByClaim s a t) := by
  unfold DueByClaim; infer_instance

/-- The agent has at least one row in `nqm_ping_task`. -/
def HasPingTask (s : Store) (a : Int) : Prop :=
  ∃ pt ∈ s.nqm_ping_task, pt.pt_ag_id = a

instance (s : Store) (a : Int) : Decidable (HasPingTask s a) := by
  unfold HasPingTask; infer_instance

/-- The agent has at least one entry in one of the four filter collections. -/
def HasAnyFilter (s : Store) (a : Int) : Prop :=
  (∃ r ∈ s.nqm_pt_target_filter_isp, r.tfisp_pt_ag_id = a) ∨
  (∃ r ∈ s.nqm_pt_target_filter_province, r.tfpv_pt_ag_id = a) ∨
  (∃ r ∈ s.nqm_pt_target_filter_city, r.tfct_pt_ag_id = a) ∨
  (∃ r ∈ s.nqm_pt_target_filter_name_tag, r.tfnt_pt_ag_id = a)

instance (s : Store) (a : Int) : Decidable (HasAnyFilter s a) := by
  unfold HasAnyFilter; infer_instance

/-- The five match rules of the filtered mode, for a stored target: its ISP,
province, city or name tag equals one of the agent's filter values of that
dimension, or it is probed by all. -/
def MatchesFilter (s : Store) (a : Int) (tg : TargetRow) : Prop :=
  (∃ r ∈ s.nqm_pt_target_filter_isp, r.tfisp_pt_ag_id = a ∧ tg.tg_isp_id = r.tfisp_isp_id) ∨
  (∃ r ∈ s.nqm_pt_target_filter_province, r.tfpv_pt_ag_id = a ∧ tg.tg_pv_id = r.tfpv_pv_id) ∨
  (∃ r ∈ s.nqm_pt_target_filter_city, r.tfct_pt_ag_id = a ∧ tg.tg_ct_id = r.tfct_ct_id) ∨
  (∃ r ∈ s.nqm_pt_target_filter_name_tag,
    r.tfnt_pt_ag_id = a ∧ tg.tg_name_tag = some r.tfnt_name_tag) ∨
  tg.tg_probed_by_all = true

instance (s : Store) (a : Int) (tg : TargetRow) : Decidable (MatchesFilter s a tg) := by
  unfold MatchesFilter; infer_instance

/-- The returned target `r` is the stored target `tg`: same id, host, ISP,
province and city. -/
def SameTarget (tg : TargetRow) (r : NqmTarget) : Prop :=
  r.Id = tg.tg_id ∧ r.Host = tg.tg_host ∧ r.IspId = tg.tg_isp_id ∧
    r.ProvinceId = tg.tg_pv_id ∧ r.CityId = tg.tg_ct_id

instance (tg : TargetRow) (r : NqmTarget) : Decidable (SameTarget tg r) := by
  unfold SameTarget; infer_instance

/-! ## Concrete stores -/

/-- One enabled agent (id 1, ISP 5, province 6, city 7) whose ping task has
period 60 and never ran. -/
def storeNeverRun : Store :=
  { nqm_agent := [⟨1, 1, 5, 6, 7⟩],
    nqm_ping_task := [⟨1, 60, none⟩],
    nqm_target := [],
    nqm_pt_target_filter_isp := [],
    nqm_pt_target_filter_province := [],
    nqm_pt_target_filter_city := [],
    nqm_pt_target_filter_name_tag := [] }

/-- One enabled agent (id 1) whose ping task has period 0, and a second
agent (id 2) with its own ping task. -/
def storeZeroPeriod : Store :=
  { nqm_agent := [⟨1, 1, 5, 6, 7⟩, ⟨2, 1, 8, 9, 10⟩],
    nqm_ping_task := [⟨1, 0, none⟩, ⟨2, 30, some 120⟩],
    nqm_target := [],
    nqm_pt_target_filter_isp := [],
    nqm_pt_target_filter_province := [],
    nqm_pt_target_filter_city := [],
    nqm_pt_target_filter_name_tag := [] }

/-- The scenario store: targets T1 (ISP 5), T2 (probed by all, empty name
tag) and T3 (province 9, name tag "edge"); agent 1 has a ping task and no
filter, agent 2 has a ping task and the filter entry ISP = 5. -/
def storeScenario : Store :=
  { nqm_agent := [⟨1, 1, 5, 6, 7⟩, ⟨2, 1, 8, 9, 10⟩],
    nqm_ping_task := [⟨1, 60, none⟩, ⟨2, 60, none⟩],
    nqm_target :=
      [⟨1, "t1.example", 5, 0, 0, none, false⟩,
       ⟨2, "t2.example", 0, 0, 0, some "", true⟩,
       ⟨3, "t3.example", 0, 9, 0, some "edge", false⟩],
    nqm_pt_target_filter_isp := [⟨2, 5⟩],
    nqm_pt_target_filter_province := [],
    nqm_pt_target_filter_city := [],
    nqm_pt_target_filter_name_tag := [] }

/-! ## Eligibility evaluation -/

theorem IFNULL_eq_getD (x : Option Int) (d : Int) : IFNULL x d = x.getD d := by
  cases x <;> rfl

theorem mem_duePingTasks {s : Store} {a t : Int} {pt : PingTaskRow} :
    pt ∈ duePingTasks s a t ↔
      pt ∈ s.nqm_ping_task ∧ pt.pt_ag_id = a ∧
        pt.pt_period ≤ Int.tdiv (t - pt.pt_time_last_execute.getD 0) 60 := by
  simp [duePingTasks, FROM_UNIXTIME, TIMESTAMPDIFF_MINUTE, IFNULL_eq_getD]

theorem mem_selectDueAgent {s : Store} {a t : Int} {row : Int × Int × Int} :
    row ∈ selectDueAgent s a t ↔
      ∃ ag ∈ s.nqm_agent, ag.ag_id = a ∧ ag.ag_status % 2 = 1 ∧
        row = (ag.ag_isp_id, ag.ag_pv_id, ag.ag_ct_id) ∧
        ∃ pt ∈ s.nqm_ping_task, pt.pt_ag_id = a ∧
          pt.pt_period ≤ Int.tdiv (t - pt.pt_time_last_execute.getD 0) 60 := by
  simp only [selectDueAgent, List.mem_flatMap, List.mem_map, List.mem_filter, mem_duePingTasks,
    Bool.and_eq_true, decide_eq_true_eq, Nat.and_one_is_mod]
  constructor
  · rintro ⟨ag, hag, pt, ⟨⟨hpt, ha, hper⟩, hid, hst⟩, rfl⟩
    exact ⟨ag, hag, hid.trans ha, hst, rfl, pt, hpt, ha, hper⟩
  · rintro ⟨ag, hag, hid, hst, rfl, pt, hpt, ha, hper⟩
    exact ⟨ag, hag, pt, ⟨⟨hpt, ha, hper⟩, hid.trans ha.symm, hst⟩, rfl⟩

theorem selectDueAgent_ne_nil_iff (s : Store) (a t : Int) :
    selectDueAgent s a t ≠ [] ↔ DueByClaim s a t := by
  constructor
  · intro h
    obtain ⟨row, hm⟩ := List.exists_mem_of_ne_nil _ h
    obtain ⟨ag, hag, hid, hst, -, hpt⟩ := mem_selectDueAgent.mp hm
    exact ⟨hpt, ag, hag, hid, hst⟩
  · rintro ⟨hpt, ag, hag, hid, hst⟩
    have hm : (ag.ag_isp_id, ag.ag_pv_id, ag.ag_ct_id) ∈ selectDueAgent s a t :=
      mem_selectDueAgent.mpr ⟨ag, hag, hid, hst, rfl, hpt⟩
    exact List.ne_nil_of_mem hm

/-- The result is non-nil exactly when no statement fails and the due-check has a row. -/
theorem result_ne_none_iff (f : Faults) (s : Store) (a t : Int) :
    (GetAndRefreshNeedPingAgentForRpc f s a t).result ≠ none ↔
      f.selectDueAgent = none ∧ f.updateLastExecute = none ∧ selectDueAgent s a t ≠ [] := by
  unfold GetAndRefreshNeedPingAgentForRpc inTx queryRowScan
  cases hf : f.selectDueAgent <;> cases hu : f.updateLastExecute <;>
    cases hr : selectDueAgent s a t <;> simp

/-- A nil result leaves the store as it was. -/
theorem store_eq_of_result_none (f : Faults) (s : Store) (a t : Int)
    (h : (GetAndRefreshNeedPingAgentForRpc f s a t).result = none) :
    (GetAndRefreshNeedPingAgentForRpc f s a t).store = s := by
  revert h
  unfold GetAndRefreshNeedPingAgentForRpc inTx queryRowScan
  cases hf : f.selectDueAgent <;> cases hu : f.updateLastExecute <;>
    cases hr : selectDueAgent s a t <;> simp

/-- A non-nil result carries the first row of the due-check and the store is
the one the claim write produces. -/
theorem of_result_some (f : Faults) (s : Store) (a t : Int) (r : NqmAgent)
    (h : (GetAndRefreshNeedPingAgentForRpc f s a t).result = some r) :
    (GetAndRefreshNeedPingAgentForRpc f s a t).store = updateLastExecute s t a ∧
      (GetAndRefreshNeedPingAgentForRpc f s a t).err = none ∧
      r.Id = a ∧ (r.IspId, r.ProvinceId, r.CityId) ∈ selectDueAgent s a t := by
  revert h
  unfold GetAndRefreshNeedPingAgentForRpc inTx queryRowScan
  cases hf : f.selectDueAgent <;> cases hu : f.updateLastExecute <;>
    cases hr : selectDueAgent s a t <;> simp
  rintro rfl
  simp

/-- Without faults the error is nil. -/
theorem err_noFaults (s : Store) (a t : Int) :
    (GetAndRefreshNeedPingAgentForRpc noFaults s a t).err = none := by
  unfold GetAndRefreshNeedPingAgentForRpc inTx queryRowScan noFaults
  cases hr : selectDueAgent s a t <;> simp

/-- For a reference time not before the last execution, the whole-minute
difference is the floor of the second difference over 60. -/
theorem TIMESTAMPDIFF_MINUTE_eq_floor (a b : Int) (h : a ≤ b) :
    TIMESTAMPDIFF_MINUTE a b = (b - a) / 60 := by
  unfold TIMESTAMPDIFF_MINUTE
  exact Int.tdiv_eq_ediv (by omega) (by decide)

theorem mem_updateLastExecute {s : Store} {a t : Int} {q : PingTaskRow} :
    q ∈ (updateLastExecute s t a).nqm_ping_task ↔
      ∃ pt ∈ s.nqm_ping_task,
        q = if pt.pt_ag_id = a then { pt with pt_time_last_execute := some t } else pt := by
  simp only [updateLastExecute, FROM_UNIXTIME, List.mem_map]
  constructor
  · rintro ⟨pt, h, rfl⟩; exact ⟨pt, h, rfl⟩
  · rintro ⟨pt, h, rfl⟩; exact ⟨pt, h, rfl⟩

/-- After the claim write every ping task of the agent carries the reference time. -/
theorem last_execute_of_updateLastExecute {s : Store} {a t : Int} {q : PingTaskRow}
    (hq : q ∈ (updateLastExecute s t a).nqm_ping_task) (ha : q.pt_ag_id = a) :
    q.pt_time_last_execute = some t ∧
      ∃ pt ∈ s.nqm_ping_task, pt.pt_ag_id = a ∧ pt.pt_period = q.pt_period := by
  obtain ⟨pt, hpt, rfl⟩ := mem_updateLastExecute.mp hq
  by_cases h : pt.pt_ag_id = a
  · rw [if_pos h]
    exact ⟨rfl, pt, hpt, h, rfl⟩
  · rw [if_neg h] at ha
    exact absurd ha h

/-- C1: without storage failure the result is non-nil exactly when the agent
has a ping task whose period is at most the whole-minute difference between
the reference time and the last execution (epoch 0 when never executed) and
an enabled agent row; the error is nil in every case, so every other case
is NotDue.  An agent without ping task is NotDue at every time, and an
elapsed time of exactly the period is due. -/
theorem C1_due_iff (s : Store) (a t : Int) :
    ((GetAndRefreshNeedPingAgentForRpc noFaults s a t).result ≠ none ↔ DueByClaim s a t) ∧
    (GetAndRefreshNeedPingAgentForRpc noFaults s a t).err = none ∧
    ((∀ pt ∈ s.nqm_ping_task, pt.pt_ag_id ≠ a) →
      (GetAndRefreshNeedPingAgentForRpc noFaults s a t).result = none) ∧
    (∀ pt ∈ s.nqm_ping_task, pt.pt_ag_id = a →
      Int.tdiv (t - pt.pt_time_last_execute.getD 0) 60 = pt.pt_period →
      (∃ ag ∈ s.nqm_agent, ag.ag_id = a ∧ ag.ag_status % 2 = 1) →
      (GetAndRefreshNeedPingAgentForRpc noFaults s a t).result ≠ none) := by
  have key : (GetAndRefreshNeedPingAgentForRpc noFaults s a t).result ≠ none ↔
      DueByClaim s a t := by
    rw [result_ne_none_iff, selectDueAgent_ne_nil_iff]
    simp [noFaults]
  refine ⟨key, err_noFaults s a t, ?_, ?_⟩
  · intro hno
    by_contra hne
    obtain ⟨⟨pt, hpt, ha, -⟩, -⟩ := key.mp hne
    exact hno pt hpt ha
  · intro pt hpt ha hper hag
    exact key.mpr ⟨⟨pt, hpt, ha, le_of_eq hper.symm⟩, hag⟩

/-- Witness of C1: the never-run agent of period 60 is due at exactly 60 minutes. -/
theorem C1_due_iff_witness :
    DueByClaim storeNeverRun 1 3600 ∧
      (GetAndRefreshNeedPingAgentForRpc noFaults storeNeverRun 1 3600).result ≠ none :=
  ⟨by decide, (C1_due_iff storeNeverRun 1 3600).1.mpr (by decide)⟩

/-- C5 fails for a period of 0: both of two successive evaluations at the
same reference time are due. -/
theorem C5_counterexample :
    (GetAndRefreshNeedPingAgentForRpc noFaults storeZeroPeriod 1 60).err = none ∧
    (GetAndRefreshNeedPingAgentForRpc noFaults
      (GetAndRefreshNeedPingAgentForRpc noFaults storeZeroPeriod 1 60).store 1 60).result
      = some { Id := 1, IspId := 5, ProvinceId := 6, CityId := 7 } := by
  decide

/-- C5 (amended): when every ping task of the agent has a period of at least
one minute, the second of two successive evaluations at the same reference
time, without storage failure, is NotDue. -/
theorem C5_second_call_not_due (s : Store) (a t : Int)
    (hperiod : ∀ pt ∈ s.nqm_ping_task, pt.pt_ag_id = a → 1 ≤ pt.pt_period) :
    (GetAndRefreshNeedPingAgentForRpc noFaults
      (GetAndRefreshNeedPingAgentForRpc noFaults s a t).store a t).result = none ∧
    (GetAndRefreshNeedPingAgentForRpc noFaults
      (GetAndRefreshNeedPingAgentForRpc noFaults s a t).store a t).err = none := by
  refine ⟨?_, err_noFaults _ a t⟩
  cases h1 : (GetAndRefreshNeedPingAgentForRpc noFaults s a t).result with
  | none =>
    rw [store_eq_of_result_none noFaults s a t h1]
    exact h1
  | some r =>
    obtain ⟨hstore, -, -, -⟩ := of_result_some noFaults s a t r h1
    rw [hstore]
    by_contra hne
    have hdue : DueByClaim (updateLastExecute s t a) a t := by
      rw [← selectDueAgent_ne_nil_iff]
      exact ((result_ne_none_iff noFaults _ a t).mp hne).2.2
    obtain ⟨⟨q, hq, hqa, hqper⟩, -⟩ := hdue
    obtain ⟨hlast, pt, hpt, hpa, hpp⟩ := last_execute_of_updateLastExecute hq hqa
    have h1le := hperiod pt hpt hpa
    rw [hlast] at hqper
    simp at hqper
    omega

/-- Witness of the amended C5 on the never-run agent of period 60. -/
theorem C5_second_call_not_due_witness :
    (GetAndRefreshNeedPingAgentForRpc noFaults storeNeverRun 1 3660).result ≠ none ∧
    (GetAndRefreshNeedPingAgentForRpc noFaults
      (GetAndRefreshNeedPingAgentForRpc noFaults storeNeverRun 1 3660).store 1 3660).result
      = none :=
  ⟨by decide, (C5_second_call_not_due storeNeverRun 1 3660 (by decide)).1⟩

theorem mem_updateLastExecute_of_mem {s : Store} {a : Int} (t : Int) {pt : PingTaskRow}
    (hpt : pt ∈ s.nqm_ping_task) (ha : pt.pt_ag_id = a) :
    ∃ q ∈ (updateLastExecute s t a).nqm_ping_task,
      q.pt_ag_id = a ∧ q.pt_period = pt.pt_period ∧ q.pt_time_last_execute = some t := by
  refine ⟨{ pt with pt_time_last_execute := some t }, ?_, ha, rfl, rfl⟩
  exact mem_updateLastExecute.mpr ⟨pt, hpt, by rw [if_pos ha]⟩

/-- C6: a non-nil result carries the agent id and the ISP, province and city
of a stored row of that agent, and afterwards the last-execution time of the
agent's ping task is the reference time; hence an enabled agent of period 60
that never executed is due at 61 minutes after the epoch, NotDue one minute
later and due again 61 minutes after the first evaluation. -/
theorem C6_due_result_and_claim (f : Faults) (s : Store) (a t : Int) :
    (∀ r, (GetAndRefreshNeedPingAgentForRpc f s a t).result = some r →
      r.Id = a ∧
      (∃ ag ∈ s.nqm_agent, ag.ag_id = a ∧ r.IspId = ag.ag_isp_id ∧
        r.ProvinceId = ag.ag_pv_id ∧ r.CityId = ag.ag_ct_id) ∧
      (∃ q ∈ (GetAndRefreshNeedPingAgentForRpc f s a t).store.nqm_ping_task, q.pt_ag_id = a) ∧
      (∀ q ∈ (GetAndRefreshNeedPingAgentForRpc f s a t).store.nqm_ping_task,
        q.pt_ag_id = a → q.pt_time_last_execute = some t)) ∧
    ((∃ pt ∈ s.nqm_ping_task, pt.pt_ag_id = a) →
      (∀ pt ∈ s.nqm_ping_task, pt.pt_ag_id = a →
        pt.pt_period = 60 ∧ pt.pt_time_last_execute = none) →
      (∃ ag ∈ s.nqm_agent, ag.ag_id = a ∧ ag.ag_status % 2 = 1) →
      (GetAndRefreshNeedPingAgentForRpc noFaults s a 3660).result ≠ none ∧
      (GetAndRefreshNeedPingAgentForRpc noFaults
        (GetAndRefreshNeedPingAgentForRpc noFaults s a 3660).store a 3720).result = none ∧
      (GetAndRefreshNeedPingAgentForRpc noFaults
        (GetAndRefreshNeedPingAgentForRpc noFaults s a 3660).store a 3720).err = none ∧
      (GetAndRefreshNeedPingAgentForRpc noFaults
        (GetAndRefreshNeedPingAgentForRpc noFaults
          (GetAndRefreshNeedPingAgentForRpc noFaults s a 3660).store a 3720).store
        a 7320).result ≠ none) := by
  constructor
  · intro r hr
    obtain ⟨hstore, -, hid, hrow⟩ := of_result_some f s a t r hr
    obtain ⟨ag, hag, haid, -, hcols, pt, hpt, hpa, -⟩ := mem_selectDueAgent.mp hrow
    simp only [Prod.mk.injEq] at hcols
    refine ⟨hid, ⟨ag, hag, haid, hcols.1, hcols.2.1, hcols.2.2⟩, ?_, ?_⟩
    · rw [hstore]
      obtain ⟨q, hq, hqa, -, -⟩ := mem_updateLastExecute_of_mem t hpt hpa
      exact ⟨q, hq, hqa⟩
    · rw [hstore]
      intro q hq hqa
      exact (last_execute_of_updateLastExecute hq hqa).1
  · rintro ⟨pt, hpt, hpa⟩ hall hag
    have hnf : ∀ (s0 : Store) (t0 : Int),
        (GetAndRefreshNeedPingAgentForRpc noFaults s0 a t0).result ≠ none ↔
          DueByClaim s0 a t0 := by
      intro s0 t0
      rw [result_ne_none_iff, selectDueAgent_ne_nil_iff]
      simp [noFaults]
    -- first evaluation: due
    have h1 : (GetAndRefreshNeedPingAgentForRpc noFaults s a 3660).result ≠ none := by
      rw [hnf]
      refine ⟨⟨pt, hpt, hpa, ?_⟩, hag⟩
      rw [(hall pt hpt hpa).1, (hall pt hpt hpa).2]
      decide
    obtain ⟨r1, hr1⟩ := Option.ne_none_iff_exists'.mp h1
    have hs1 : (GetAndRefreshNeedPingAgentForRpc noFaults s a 3660).store =
        updateLastExecute s 3660 a := (of_result_some noFaults s a 3660 r1 hr1).1
    -- second evaluation: not due
    have h2 : (GetAndRefreshNeedPingAgentForRpc noFaults
        (updateLastExecute s 3660 a) a 3720).result = none := by
      by_contra hne
      obtain ⟨⟨q, hq, hqa, hqper⟩, -⟩ := (hnf _ _).mp hne
      obtain ⟨hlast, p, hp, hpa2, hpp⟩ := last_execute_of_updateLastExecute hq hqa
      rw [hlast, ← hpp, (hall p hp hpa2).1] at hqper
      revert hqper
      decide
    have hs2 := store_eq_of_result_none noFaults (updateLastExecute s 3660 a) a 3720 h2
    refine ⟨h1, ?_, ?_, ?_⟩
    · rw [hs1]; exact h2
    · exact err_noFaults _ a 3720
    · rw [hs1, hs2, hnf]
      obtain ⟨q, hq, hqa, hqp, hql⟩ := mem_updateLastExecute_of_mem 3660 hpt hpa
      refine ⟨⟨q, hq, hqa, ?_⟩, hag⟩
      rw [hqp, hql, (hall pt hpt hpa).1]
      decide

/-- Witness of C6: the never-run agent of period 60 at 61 minutes after the epoch. -/
theorem C6_due_result_and_claim_witness :
    (GetAndRefreshNeedPingAgentForRpc noFaults storeNeverRun 1 3660).result
        = some { Id := 1, IspId := 5, ProvinceId := 6, CityId := 7 } ∧
    (∀ q ∈ (GetAndRefreshNeedPingAgentForRpc noFaults storeNeverRun 1 3660).store.nqm_ping_task,
        q.pt_ag_id = 1 → q.pt_time_last_execute = some 3660) ∧
    (GetAndRefreshNeedPingAgentForRpc noFaults
        (GetAndRefreshNeedPingAgentForRpc noFaults storeNeverRun 1 3660).store 1 3720).result
        = none :=
  ⟨by decide,
   ((C6_due_result_and_claim noFaults storeNeverRun 1 3660).1
      { Id := 1, IspId := 5, ProvinceId := 6, CityId := 7 } (by decide)).2.2.2,
   ((C6_due_result_and_claim noFaults storeNeverRun 1 3660).2
      (by decide) (by decide) (by decide)).2.1⟩

/-- C7: when the due-check finds a row and the update of the last-execution
time fails, the result is nil and the error is the update's error; the store
is left as it was. -/
theorem C7_update_failure (f : Faults) (s : Store) (a t : Int) (e : DbError)
    (hsel : f.selectDueAgent = none) (hdue : DueByClaim s a t)
    (hupd : f.updateLastExecute = some e) :
    (GetAndRefreshNeedPingAgentForRpc f s a t).result = none ∧
    (GetAndRefreshNeedPingAgentForRpc f s a t).err = some e ∧
    (GetAndRefreshNeedPingAgentForRpc f s a t).store = s := by
  have hrows := (selectDueAgent_ne_nil_iff s a t).mpr hdue
  unfold GetAndRefreshNeedPingAgentForRpc inTx queryRowScan
  cases hr : selectDueAgent s a t with
  | nil => exact absurd hr hrows
  | cons row rest => simp [hsel, hupd]

/-- Witness of C7: the update fails for the due agent of `storeNeverRun`. -/
theorem C7_update_failure_witness :
    DueByClaim storeNeverRun 1 3660 ∧
    (GetAndRefreshNeedPingAgentForRpc { noFaults with updateLastExecute := some ⟨"gone away"⟩ }
      storeNeverRun 1 3660).result = none ∧
    (GetAndRefreshNeedPingAgentForRpc { noFaults with updateLastExecute := some ⟨"gone away"⟩ }
      storeNeverRun 1 3660).err = some ⟨"gone away"⟩ :=
  ⟨by decide,
   (C7_update_failure { noFaults with updateLastExecute := some ⟨"gone away"⟩ }
      storeNeverRun 1 3660 ⟨"gone away"⟩ rfl (by decide) rfl).1,
   (C7_update_failure { noFaults with updateLastExecute := some ⟨"gone away"⟩ }
      storeNeverRun 1 3660 ⟨"gone away"⟩ rfl (by decide) rfl).2.1⟩

/-- C10: a call changes nothing but the last-execution time of the ping
tasks of the agent it is called for: every other table is unchanged, the
ping-task rows keep their agent id and period, the rows of other agents are
unchanged; and a call that returns a nil result leaves the whole store
unchanged. -/
theorem C10_frame (f : Faults) (s : Store) (a t : Int) :
    (GetAndRefreshNeedPingAgentForRpc f s a t).store.nqm_agent = s.nqm_agent ∧
    (GetAndRefreshNeedPingAgentForRpc f s a t).store.nqm_target = s.nqm_target ∧
    (GetAndRefreshNeedPingAgentForRpc f s a t).store.nqm_pt_target_filter_isp
      = s.nqm_pt_target_filter_isp ∧
    (GetAndRefreshNeedPingAgentForRpc f s a t).store.nqm_pt_target_filter_province
      = s.nqm_pt_target_filter_province ∧
    (GetAndRefreshNeedPingAgentForRpc f s a t).store.nqm_pt_target_filter_city
      = s.nqm_pt_target_filter_city ∧
    (GetAndRefreshNeedPingAgentForRpc f s a t).store.nqm_pt_target_filter_name_tag
      = s.nqm_pt_target_filter_name_tag ∧
    List.Forall₂
      (fun old new => new.pt_ag_id = old.pt_ag_id ∧ new.pt_period = old.pt_period ∧
        (old.pt_ag_id ≠ a → new = old))
      s.nqm_ping_task (GetAndRefreshNeedPingAgentForRpc f s a t).store.nqm_ping_task ∧
    ((GetAndRefreshNeedPingAgentForRpc f s a t).result = none →
      (GetAndRefreshNeedPingAgentForRpc f s a t).store = s) := by
  cases hres : (GetAndRefreshNeedPingAgentForRpc f s a t).result with
  | none =>
    rw [store_eq_of_result_none f s a t hres]
    refine ⟨rfl, rfl, rfl, rfl, rfl, rfl, ?_, fun _ => rfl⟩
    rw [List.forall₂_same]
    intro x _
    exact ⟨rfl, rfl, fun _ => rfl⟩
  | some r =>
    rw [(of_result_some f s a t r hres).1]
    refine ⟨rfl, rfl, rfl, rfl, rfl, rfl, ?_, fun h => by cases h⟩
    simp only [updateLastExecute]
    rw [List.forall₂_map_right_iff, List.forall₂_same]
    intro x _
    by_cases hx : x.pt_ag_id = a
    · rw [if_pos hx]
      exact ⟨rfl, rfl, fun h => absurd hx h⟩
    · rw [if_neg hx]
      exact ⟨rfl, rfl, fun _ => rfl⟩

/-- Witness of C10: a NotDue evaluation (agent 2 of `storeZeroPeriod`, last
run at 120 s, period 30 min, checked at 600 s) leaves the store unchanged. -/
theorem C10_frame_witness :
    (GetAndRefreshNeedPingAgentForRpc noFaults storeZeroPeriod 2 600).result = none ∧
    (GetAndRefreshNeedPingAgentForRpc noFaults storeZeroPeriod 2 600).store = storeZeroPeriod :=
  ⟨by decide, (C10_frame noFaults storeZeroPeriod 2 600).2.2.2.2.2.2.2 (by decide)⟩

/-- The two statements of a call run back to back are the call. -/
theorem stepCall_twice (f : Faults) (s : Store) (a t : Int) :
    stepCall f (stepCall f s (CallState.start a t)).1 (stepCall f s (CallState.start a t)).2 =
      ((GetAndRefreshNeedPingAgentForRpc f s a t).store,
        CallState.returned (GetAndRefreshNeedPingAgentForRpc f s a t).result
          (GetAndRefreshNeedPingAgentForRpc f s a t).err) := by
  unfold GetAndRefreshNeedPingAgentForRpc inTx queryRowScan
  cases hf : f.selectDueAgent <;> cases hu : f.updateLastExecute <;>
    cases hr : selectDueAgent s a t <;> simp [stepCall, queryRowScan, hf, hu, hr]

/-- Whatever happens, the claim write is never issued on the transaction. -/
theorem update_issued_on_DB (f : Faults) (s : Store) (a t : Int) (h : Handle)
    (hm : (h, Statement.updateLastExecute) ∈ (GetAndRefreshNeedPingAgentForRpc f s a t).issued) :
    h = DB := by
  revert hm
  unfold GetAndRefreshNeedPingAgentForRpc inTx queryRowScan
  cases hf : f.selectDueAgent <;> cases hu : f.updateLastExecute <;>
    cases hr : selectDueAgent s a t <;> simp

/-- The result state of `getPingTaskState` is one of the three constants
whenever the error is nil. -/
theorem getPingTaskState_range (f : Faults) (s : Store) (a : Int)
    (h : (getPingTaskState f s a).2 = none) :
    (getPingTaskState f s a).1 = NO_PING_TASK ∨
      (getPingTaskState f s a).1 = HAS_PING_TASK_WITH_FILTER ∨
      (getPingTaskState f s a).1 = HAS_PING_TASK_ALL_MATCHING := by
  revert h
  unfold getPingTaskState
  cases f.countPingTask with
  | some e => simp
  | none =>
    by_cases h0 : countPingTask s a = NO_PING_TASK
    · simp [h0]
    · cases f.countFilter with
      | some e => simp [h0]
      | none =>
        by_cases h1 : countFilter s a = 1
        · simp [h0, h1]
        · simp [h0, h1]

/-- C9 fails on the code: for the due agent of `storeNeverRun` the due-check
is issued on the transaction and the claim write on `DB`, outside it; and
when the statements of two calls at the same reference time alternate, both
calls return "due". -/
theorem C9_claim_write_outside_transaction :
    (GetAndRefreshNeedPingAgentForRpc noFaults storeNeverRun 1 3660).issued =
      [(Handle.transaction, Statement.selectDueAgent), (Handle.pool, Statement.updateLastExecute)] ∧
    runCalls noFaults [false, true, false, true]
      (storeNeverRun, CallState.start 1 3660, CallState.start 1 3660) =
      (updateLastExecute storeNeverRun 3660 1,
        CallState.returned (some { Id := 1, IspId := 5, ProvinceId := 6, CityId := 7 }) none,
        CallState.returned (some { Id := 1, IspId := 5, ProvinceId := 6, CityId := 7 }) none) := by
  decide

/-! ## Classification and target resolution -/

theorem countPingTask_eq_zero_iff (s : Store) (a : Int) :
    countPingTask s a = NO_PING_TASK ↔ ¬ HasPingTask s a := by
  unfold countPingTask NO_PING_TASK HasPingTask
  rw [Int.natCast_eq_zero, List.length_eq_zero, List.filter_eq_nil_iff]
  simp

/-- A duplicate-free list all of whose entries equal `a` has one entry,
unless it is empty. -/
theorem length_dedup_of_all_eq (l : List Int) (a : Int) (hall : ∀ x ∈ l, x = a) (hne : l ≠ []) :
    l.dedup.length = 1 := by
  have hmem : a ∈ l := by
    obtain ⟨x, hx⟩ := List.exists_mem_of_ne_nil l hne
    exact hall x hx ▸ hx
  have hcount : List.count a l.dedup = l.dedup.length := by
    rw [List.count_eq_length]
    intro b hb
    exact (hall b (List.mem_dedup.mp hb)).symm
  rw [← hcount, List.count_dedup, if_pos hmem]

theorem take_one_eq_nil_iff {α : Type} (l : List α) : l.take 1 = [] ↔ l = [] := by
  cases l <;> simp

theorem limit_one_eq_nil_iff {α : Type} (l : List α) (p : α → Bool) (g : α → Int) :
    ((l.filter p).map g).take 1 = [] ↔ ∀ r ∈ l, ¬ p r = true := by
  rw [take_one_eq_nil_iff, List.map_eq_nil_iff, List.filter_eq_nil_iff]

theorem countFilter_eq_one_iff (s : Store) (a : Int) :
    countFilter s a = 1 ↔ HasAnyFilter s a := by
  unfold countFilter filterUnion
  generalize hL : (((s.nqm_pt_target_filter_name_tag.filter
      fun r => decide (r.tfnt_pt_ag_id = a)).map fun r => r.tfnt_pt_ag_id).take 1
    ++ (((s.nqm_pt_target_filter_isp.filter
      fun r => decide (r.tfisp_pt_ag_id = a)).map fun r => r.tfisp_pt_ag_id).take 1)
    ++ (((s.nqm_pt_target_filter_province.filter
      fun r => decide (r.tfpv_pt_ag_id = a)).map fun r => r.tfpv_pt_ag_id).take 1)
    ++ (((s.nqm_pt_target_filter_city.filter
      fun r => decide (r.tfct_pt_ag_id = a)).map fun r => r.tfct_pt_ag_id).take 1)) = L
  have hall : ∀ x ∈ L, x = a := by
    intro x hx
    rw [← hL] at hx
    simp only [List.mem_append] at hx
    rcases hx with ((hx | hx) | hx) | hx <;>
    · have hx2 := List.mem_of_mem_take hx
      simp only [List.mem_map, List.mem_filter, decide_eq_true_eq] at hx2
      obtain ⟨r, ⟨-, hr⟩, rfl⟩ := hx2
      exact hr
  have hne : L ≠ [] ↔ HasAnyFilter s a := by
    rw [← hL]
    unfold HasAnyFilter
    rw [ne_eq, List.append_eq_nil, List.append_eq_nil, List.append_eq_nil,
      limit_one_eq_nil_iff, limit_one_eq_nil_iff, limit_one_eq_nil_iff, limit_one_eq_nil_iff]
    simp only [decide_eq_true_eq]
    constructor
    · intro h
      by_contra hc
      simp only [not_or, not_exists, not_and] at hc
      exact h ⟨⟨⟨hc.2.2.2, hc.1⟩, hc.2.1⟩, hc.2.2.1⟩
    · rintro h ⟨⟨⟨h4, h1⟩, h2⟩, h3⟩
      rcases h with ⟨r, hr, ha⟩ | ⟨r, hr, ha⟩ | ⟨r, hr, ha⟩ | ⟨r, hr, ha⟩
      · exact h1 r hr ha
      · exact h2 r hr ha
      · exact h3 r hr ha
      · exact h4 r hr ha
  by_cases h : L = []
  · subst h
    have : ¬ HasAnyFilter s a := fun hh => (hne.mpr hh) rfl
    simp [this]
  · have h1 := length_dedup_of_all_eq L a hall h
    simp [h1, hne.mp h]

/-- Without faults `getPingTaskState` returns one of the three constants,
chosen by the presence of a ping task and of a filter entry. -/
theorem getPingTaskState_noFaults (s : Store) (a : Int) :
    getPingTaskState noFaults s a =
      (if ¬ HasPingTask s a then NO_PING_TASK
        else if HasAnyFilter s a then HAS_PING_TASK_WITH_FILTER
        else HAS_PING_TASK_ALL_MATCHING, none) := by
  unfold getPingTaskState
  simp only [noFaults]
  by_cases hp : HasPingTask s a
  · have h0 : ¬ countPingTask s a = NO_PING_TASK := by
      rw [countPingTask_eq_zero_iff]; exact not_not.mpr hp
    by_cases hf : HasAnyFilter s a
    · have h1 := (countFilter_eq_one_iff s a).mpr hf
      simp [h0, h1, hp, hf]
    · have h1 : ¬ countFilter s a = 1 := fun h => hf ((countFilter_eq_one_iff s a).mp h)
      simp [h0, h1, hp, hf]
  · have h0 := (countPingTask_eq_zero_iff s a).mpr hp
    simp [h0, hp]

/-- C4: without storage failure `getPingTaskState` returns `NO_PING_TASK`
exactly when the agent has no ping-task row; with a ping task it returns
`HAS_PING_TASK_WITH_FILTER` exactly when the agent has an entry in one of the
four filter collections and `HAS_PING_TASK_ALL_MATCHING` exactly when it has
none. -/
theorem C4_ping_task_state (s : Store) (a : Int) :
    (getPingTaskState noFaults s a).2 = none ∧
    ((getPingTaskState noFaults s a).1 = NO_PING_TASK ↔
      ∀ pt ∈ s.nqm_ping_task, pt.pt_ag_id ≠ a) ∧
    ((∃ pt ∈ s.nqm_ping_task, pt.pt_ag_id = a) →
      ((getPingTaskState noFaults s a).1 = HAS_PING_TASK_WITH_FILTER ↔ HasAnyFilter s a) ∧
      ((getPingTaskState noFaults s a).1 = HAS_PING_TASK_ALL_MATCHING ↔ ¬ HasAnyFilter s a)) := by
  rw [getPingTaskState_noFaults]
  refine ⟨rfl, ?_, ?_⟩
  · by_cases hp : HasPingTask s a
    · by_cases hf : HasAnyFilter s a
      · simp only [hp, hf, not_true, if_false, if_true]
        constructor
        · intro h; exact absurd h (by decide)
        · intro h; obtain ⟨pt, hpt, ha⟩ := hp; exact absurd ha (h pt hpt)
      · simp only [hp, hf, not_true, if_false]
        constructor
        · intro h; exact absurd h (by decide)
        · intro h; obtain ⟨pt, hpt, ha⟩ := hp; exact absurd ha (h pt hpt)
    · simp only [hp, not_false_eq_true, if_true, true_iff]
      intro pt hpt ha
      exact hp ⟨pt, hpt, ha⟩
  · intro hp
    have hp2 : HasPingTask s a := hp
    by_cases hf : HasAnyFilter s a
    · simp only [hp2, hf, not_true, if_false, if_true, not_true_eq_false, iff_false, true_iff, iff_true]
      exact ⟨trivial, by decide⟩
    · simp only [hp2, hf, not_true, if_false, not_false_eq_true, iff_true, iff_false]
      exact ⟨by decide, trivial⟩

/-- Witness of C4: in the scenario store agent 2 has a ping task and an ISP
filter entry. -/
theorem C4_ping_task_state_witness :
    HasAnyFilter storeScenario 2 ∧
    (getPingTaskState noFaults storeScenario 2).1 = HAS_PING_TASK_WITH_FILTER :=
  ⟨by decide, ((C4_ping_task_state storeScenario 2).2.2 (by decide)).1.mpr (by decide)⟩

theorem mem_loadAllTargets {s : Store} {c : TargetCols} :
    c ∈ loadAllTargets s ↔ ∃ tg ∈ s.nqm_target, c = targetCols tg := by
  simp only [loadAllTargets, List.mem_map]
  constructor
  · rintro ⟨tg, h, rfl⟩; exact ⟨tg, h, rfl⟩
  · rintro ⟨tg, h, rfl⟩; exact ⟨tg, h, rfl⟩

theorem mem_loadTargetsByFilter {s : Store} {a : Int} {c : TargetCols} :
    c ∈ loadTargetsByFilter s a ↔
      ∃ tg ∈ s.nqm_target, MatchesFilter s a tg ∧ c = targetCols tg := by
  simp only [loadTargetsByFilter, targetsByIsp, targetsByProvince, targetsByCity,
    targetsByNameTag, targetsProbedByAll, List.mem_dedup, List.mem_append, List.mem_flatMap,
    List.mem_map, List.mem_filter, Bool.and_eq_true, decide_eq_true_eq, MatchesFilter]
  constructor
  · rintro ((((⟨tg, htg, r, ⟨hr, hm⟩, rfl⟩ | ⟨tg, htg, r, ⟨hr, hm⟩, rfl⟩) |
      ⟨tg, htg, r, ⟨hr, hm⟩, rfl⟩) | ⟨tg, htg, r, ⟨hr, hm⟩, rfl⟩) | ⟨tg, ⟨htg, hall⟩, rfl⟩)
    · exact ⟨tg, htg, Or.inl ⟨r, hr, hm⟩, rfl⟩
    · exact ⟨tg, htg, Or.inr (Or.inl ⟨r, hr, hm⟩), rfl⟩
    · exact ⟨tg, htg, Or.inr (Or.inr (Or.inl ⟨r, hr, hm⟩)), rfl⟩
    · exact ⟨tg, htg, Or.inr (Or.inr (Or.inr (Or.inl ⟨r, hr, hm⟩))), rfl⟩
    · exact ⟨tg, htg, Or.inr (Or.inr (Or.inr (Or.inr hall))), rfl⟩
  · rintro ⟨tg, htg, hm, rfl⟩
    rcases hm with ⟨r, hr, hm⟩ | ⟨r, hr, hm⟩ | ⟨r, hr, hm⟩ | ⟨r, hr, hm⟩ | hall
    · exact Or.inl (Or.inl (Or.inl (Or.inl ⟨tg, htg, r, ⟨hr, hm⟩, rfl⟩)))
    · exact Or.inl (Or.inl (Or.inl (Or.inr ⟨tg, htg, r, ⟨hr, hm⟩, rfl⟩)))
    · exact Or.inl (Or.inl (Or.inr ⟨tg, htg, r, ⟨hr, hm⟩, rfl⟩))
    · exact Or.inl (Or.inr ⟨tg, htg, r, ⟨hr, hm⟩, rfl⟩)
    · exact Or.inr ⟨tg, ⟨htg, hall⟩, rfl⟩

theorem sameTarget_scanTarget (U : String) (tg : TargetRow) :
    SameTarget tg (scanTarget U (targetCols tg)) :=
  ⟨rfl, rfl, rfl, rfl, rfl⟩

/-- Whatever fails, every returned target is the scan of a row of one of the
two loaders. -/
theorem mem_targets_cases (U : String) (f : Faults) (s : Store) (a : Int) (r : NqmTarget)
    (hr : r ∈ (GetTargetsByAgentForRpc U f s a).1) :
    ∃ c, (c ∈ loadTargetsByFilter s a ∨ c ∈ loadAllTargets s) ∧ r = scanTarget U c := by
  revert hr
  unfold GetTargetsByAgentForRpc
  rcases hst : getPingTaskState f s a with ⟨taskState, _ | e⟩
  · simp only
    by_cases h0 : taskState = NO_PING_TASK
    · simp [h0]
    · rw [if_neg h0]
      cases hl : f.loadTargets with
      | some e => simp
      | none =>
        by_cases h1 : taskState = HAS_PING_TASK_WITH_FILTER
        · rw [if_pos h1]
          simp only [List.mem_map]
          rintro ⟨c, hc, rfl⟩
          exact ⟨c, Or.inl hc, rfl⟩
        · by_cases h2 : taskState = HAS_PING_TASK_ALL_MATCHING
          · rw [if_neg h1, if_pos h2]
            simp only [List.mem_map]
            rintro ⟨c, hc, rfl⟩
            exact ⟨c, Or.inr hc, rfl⟩
          · rw [if_neg h1, if_neg h2]
            simp
  · simp

/-- In the filtered mode, without faults, the targets are the scanned rows of
`loadTargetsByFilter`. -/
theorem targets_filtered (U : String) (s : Store) (a : Int)
    (hpt : HasPingTask s a) (hf : HasAnyFilter s a) :
    GetTargetsByAgentForRpc U noFaults s a =
      ((loadTargetsByFilter s a).map (scanTarget U), none) := by
  unfold GetTargetsByAgentForRpc
  rw [getPingTaskState_noFaults]
  simp [hpt, hf, noFaults, HAS_PING_TASK_WITH_FILTER, NO_PING_TASK]

/-- In the unfiltered mode, without faults, the targets are the scanned rows
of `loadAllTargets`. -/
theorem targets_unfiltered (U : String) (s : Store) (a : Int)
    (hpt : HasPingTask s a) (hf : ¬ HasAnyFilter s a) :
    GetTargetsByAgentForRpc U noFaults s a =
      ((loadAllTargets s).map (scanTarget U), none) := by
  unfold GetTargetsByAgentForRpc
  rw [getPingTaskState_noFaults]
  simp [hpt, hf, noFaults, HAS_PING_TASK_WITH_FILTER, HAS_PING_TASK_ALL_MATCHING, NO_PING_TASK]

/-- C2 fails: agent 1 of the scenario store is in the unfiltered mode and is
given target T1, which is not probed by all. -/
theorem C2_counterexample :
    getPingTaskState noFaults storeScenario 1 = (HAS_PING_TASK_ALL_MATCHING, none) ∧
    ¬ (∀ r ∈ (GetTargetsByAgentForRpc "<UNDEFINED>" noFaults storeScenario 1).1,
        ∃ tg ∈ storeScenario.nqm_target, SameTarget tg r ∧ tg.tg_probed_by_all = true) := by
  decide

/-- C2 (amended): for an agent with a ping task and no filter entry,
`GetTargetsByAgentForRpc` returns exactly the stored targets, whatever their
"probed by all" flag: every returned target is a stored one, every stored
target is returned, and there are as many as stored rows. -/
theorem C2_unfiltered_returns_all (U : String) (s : Store) (a : Int)
    (hpt : HasPingTask s a) (hf : ¬ HasAnyFilter s a) :
    (GetTargetsByAgentForRpc U noFaults s a).2 = none ∧
    (∀ r ∈ (GetTargetsByAgentForRpc U noFaults s a).1, ∃ tg ∈ s.nqm_target, SameTarget tg r) ∧
    (∀ tg ∈ s.nqm_target, ∃ r ∈ (GetTargetsByAgentForRpc U noFaults s a).1, SameTarget tg r) ∧
    (GetTargetsByAgentForRpc U noFaults s a).1.length = s.nqm_target.length := by
  rw [targets_unfiltered U s a hpt hf]
  dsimp only
  refine ⟨rfl, ?_, ?_, ?_⟩
  · intro r hr
    obtain ⟨c, hc, rfl⟩ := List.mem_map.mp hr
    obtain ⟨tg, htg, rfl⟩ := mem_loadAllTargets.mp hc
    exact ⟨tg, htg, sameTarget_scanTarget U tg⟩
  · intro tg htg
    exact ⟨scanTarget U (targetCols tg),
      List.mem_map.mpr ⟨targetCols tg, mem_loadAllTargets.mpr ⟨tg, htg, rfl⟩, rfl⟩,
      sameTarget_scanTarget U tg⟩
  · simp [loadAllTargets]

/-- Witness of the amended C2: agent 1 of the scenario store is given all
three targets. -/
theorem C2_unfiltered_returns_all_witness :
    HasPingTask storeScenario 1 ∧ ¬ HasAnyFilter storeScenario 1 ∧
    (GetTargetsByAgentForRpc "<UNDEFINED>" noFaults storeScenario 1).1.length = 3 :=
  ⟨by decide, by decide,
   (C2_unfiltered_returns_all "<UNDEFINED>" storeScenario 1 (by decide) (by decide)).2.2.2⟩

/-- With unique target ids, the ids returned in the filtered mode are
duplicate-free. -/
theorem nodup_filtered_ids (s : Store) (a : Int)
    (hids : (s.nqm_target.map fun tg => tg.tg_id).Nodup) :
    ((loadTargetsByFilter s a).map fun c => c.tg_id).Nodup := by
  refine List.Nodup.map_on ?_ (List.nodup_dedup _)
  intro x hx y hy hxy
  obtain ⟨tx, htx, -, rfl⟩ := mem_loadTargetsByFilter.mp hx
  obtain ⟨ty, hty, -, rfl⟩ := mem_loadTargetsByFilter.mp hy
  rw [List.inj_on_of_nodup_map hids htx hty hxy]

theorem mem_filtered_ids_iff (s : Store) (a : Int)
    (hids : (s.nqm_target.map fun tg => tg.tg_id).Nodup) (tg : TargetRow)
    (htg : tg ∈ s.nqm_target) :
    tg.tg_id ∈ ((loadTargetsByFilter s a).map fun c => c.tg_id) ↔ MatchesFilter s a tg := by
  rw [List.mem_map]
  constructor
  · rintro ⟨c, hc, hid⟩
    obtain ⟨tg2, htg2, hm, rfl⟩ := mem_loadTargetsByFilter.mp hc
    have : tg2 = tg := List.inj_on_of_nodup_map hids htg2 htg hid
    rw [← this]; exact hm
  · intro hm
    exact ⟨targetCols tg, mem_loadTargetsByFilter.mpr ⟨tg, htg, hm, rfl⟩, rfl⟩

/-- C3: with unique target ids, for an agent with a ping task and a filter
entry, `GetTargetsByAgentForRpc` returns exactly the stored targets that
satisfy one of the five match rules: every returned target is such a stored
target, and the id of each such stored target occurs exactly once among the
returned ids, that of any other stored target not at all. -/
theorem C3_filtered_union (U : String) (s : Store) (a : Int)
    (hids : (s.nqm_target.map fun tg => tg.tg_id).Nodup)
    (hpt : HasPingTask s a) (hf : HasAnyFilter s a) :
    (GetTargetsByAgentForRpc U noFaults s a).2 = none ∧
    (∀ r ∈ (GetTargetsByAgentForRpc U noFaults s a).1,
      ∃ tg ∈ s.nqm_target, SameTarget tg r ∧ MatchesFilter s a tg) ∧
    (∀ tg ∈ s.nqm_target, MatchesFilter s a tg →
      (∃ r ∈ (GetTargetsByAgentForRpc U noFaults s a).1, SameTarget tg r) ∧
      List.count tg.tg_id ((GetTargetsByAgentForRpc U noFaults s a).1.map fun r => r.Id) = 1) ∧
    (∀ tg ∈ s.nqm_target, ¬ MatchesFilter s a tg →
      List.count tg.tg_id ((GetTargetsByAgentForRpc U noFaults s a).1.map fun r => r.Id) = 0) := by
  rw [targets_filtered U s a hpt hf]
  dsimp only
  have hmap : ((loadTargetsByFilter s a).map (scanTarget U)).map (fun r => r.Id) =
      (loadTargetsByFilter s a).map fun c => c.tg_id := by
    rw [List.map_map]; rfl
  rw [hmap]
  have hnd := nodup_filtered_ids s a hids
  refine ⟨rfl, ?_, ?_, ?_⟩
  · intro r hr
    obtain ⟨c, hc, rfl⟩ := List.mem_map.mp hr
    obtain ⟨tg, htg, hm, rfl⟩ := mem_loadTargetsByFilter.mp hc
    exact ⟨tg, htg, sameTarget_scanTarget U tg, hm⟩
  · intro tg htg hm
    refine ⟨⟨scanTarget U (targetCols tg),
      List.mem_map.mpr ⟨targetCols tg, mem_loadTargetsByFilter.mpr ⟨tg, htg, hm, rfl⟩, rfl⟩,
      sameTarget_scanTarget U tg⟩, ?_⟩
    rw [List.count_eq_of_nodup hnd, if_pos ((mem_filtered_ids_iff s a hids tg htg).mpr hm)]
  · intro tg htg hm
    rw [List.count_eq_of_nodup hnd,
      if_neg (fun h => hm ((mem_filtered_ids_iff s a hids tg htg).mp h))]

/-- Witness of C3: agent 2 of the scenario store (filter ISP = 5) is given
T1 and T2, each once, and not T3. -/
theorem C3_filtered_union_witness :
    HasAnyFilter storeScenario 2 ∧
    ((GetTargetsByAgentForRpc "<UNDEFINED>" noFaults storeScenario 2).1.map fun r => r.Id)
      = [1, 2] ∧
    (∀ r ∈ (GetTargetsByAgentForRpc "<UNDEFINED>" noFaults storeScenario 2).1,
      ∃ tg ∈ storeScenario.nqm_target, SameTarget tg r ∧ MatchesFilter storeScenario 2 tg) :=
  ⟨by decide, by decide,
   (C3_filtered_union "<UNDEFINED>" storeScenario 2 (by decide) (by decide) (by decide)).2.1⟩

/-- C8: every returned target is a stored target whose name tag is returned
unchanged when one is stored and as `UNDEFINED_STRING` when it is `NULL`;
so, the sentinel being non-empty, a returned empty name tag always comes from
a stored empty tag, never from an absent one. -/
theorem C8_name_tag_sentinel (U : String) (f : Faults) (s : Store) (a : Int) :
    (∀ r ∈ (GetTargetsByAgentForRpc U f s a).1,
      ∃ tg ∈ s.nqm_target, SameTarget tg r ∧
        (tg.tg_name_tag = none → r.NameTag = U) ∧
        (∀ x, tg.tg_name_tag = some x → r.NameTag = x)) ∧
    (U ≠ "" → ∀ r ∈ (GetTargetsByAgentForRpc U f s a).1, r.NameTag = "" →
      ∃ tg ∈ s.nqm_target, SameTarget tg r ∧ tg.tg_name_tag = some "") := by
  have key : ∀ r ∈ (GetTargetsByAgentForRpc U f s a).1,
      ∃ tg ∈ s.nqm_target, r = scanTarget U (targetCols tg) := by
    intro r hr
    obtain ⟨c, hc, rfl⟩ := mem_targets_cases U f s a r hr
    rcases hc with hc | hc
    · obtain ⟨tg, htg, -, rfl⟩ := mem_loadTargetsByFilter.mp hc
      exact ⟨tg, htg, rfl⟩
    · obtain ⟨tg, htg, rfl⟩ := mem_loadAllTargets.mp hc
      exact ⟨tg, htg, rfl⟩
  constructor
  · intro r hr
    obtain ⟨tg, htg, rfl⟩ := key r hr
    refine ⟨tg, htg, sameTarget_scanTarget U tg, ?_, ?_⟩
    · intro hnone
      simp [scanTarget, targetCols, hnone]
    · intro x hx
      simp [scanTarget, targetCols, hx]
  · intro hU r hr hempty
    obtain ⟨tg, htg, rfl⟩ := key r hr
    refine ⟨tg, htg, sameTarget_scanTarget U tg, ?_⟩
    cases htag : tg.tg_name_tag with
    | none =>
      simp [scanTarget, targetCols, htag] at hempty
      exact absurd hempty hU
    | some x =>
      simp [scanTarget, targetCols, htag] at hempty
      rw [hempty]

/-- Witness of C8 on the scenario store: T1 has no name tag, T2 an empty one. -/
theorem C8_name_tag_sentinel_witness :
    ((GetTargetsByAgentForRpc "<UNDEFINED>" noFaults storeScenario 2).1.map fun r => r.NameTag)
      = ["<UNDEFINED>", ""] ∧
    (∀ r ∈ (GetTargetsByAgentForRpc "<UNDEFINED>" noFaults storeScenario 2).1, r.NameTag = "" →
      ∃ tg ∈ storeScenario.nqm_target, SameTarget tg r ∧ tg.tg_name_tag = some "") :=
  ⟨by decide,
   (C8_name_tag_sentinel "<UNDEFINED>" noFaults storeScenario 2).2 (by decide)⟩

end Hbs
